import Mathlib

/-!
# Verification of the CTP penetration-test-kit control plane

A shallow embedding, in Lean 4, of the supervisory control plane of the
`ctp-penetration-test-kit` repository, together with theorems checking the
natural-language specification against it.

Embedded components and their sources:

* `TestRiskManager` and its operations — `src/core/risk.py`;
* `WorkerController.run_case` / the `RUN_CASE` branch of
  `WorkerController.handle_rpc_request` — `src/worker.py`;
* `ProcessManager` — `src/web/process_manager.py`.

Modelling conventions:

* Python `float` values are modelled as exact rationals (`ℚ`).  Literals such
  as `0.2`, `4660.1` or `1e-6` are embedded at the exact value of the IEEE-754
  double the Python source denotes.  Python's `%` on positive floats is
  `fmod`, which is exact on doubles, so `pymod` below computes the very value
  the code computes for the inputs considered here.
* Python dicts keyed by signature tuples are modelled as association lists.
* Logging calls are side effects on no modelled state and are dropped; a
  threshold "alert" is observed through its one-shot `warned*` latch.
* `threading.Lock` held/free state is a `Bool`; a non-blocking `acquire`
  reads and sets it in one step, which is exactly the atomicity the lock
  provides to racing callers.
-/

namespace CtpKit

/-- A tradable contract as the risk code reads it: a symbol and a minimum
price increment (`pricetick`), from `self.tester.contract`. -/
structure Contract where
  symbol : String
  pricetick : ℚ
deriving DecidableEq, Repr

/-- The fields of `vnpy.trader.object.OrderRequest` that
`TestRiskManager.check_order` and `_order_signature` read.  `direction`,
`offset` and `order_type` stand for the `.value` strings of the vnpy enums. -/
structure OrderRequest where
  symbol : String
  direction : String
  offset : String
  order_type : String
  volume : ℚ
  price : ℚ
  reference : String
deriving DecidableEq, Repr

/-- The fields of `CancelRequest` read by `register_cancel_request`. -/
structure CancelRequest where
  orderid : String
  symbol : String
  exchange : String
deriving DecidableEq, Repr

/-- Python's `round` ties-to-even on the integers. -/
def round_half_even (q : ℚ) : ℤ :=
  let f : ℤ := ⌊q⌋
  let r : ℚ := q - f
  if r < 1/2 then f
  else if 1/2 < r then f + 1
  else if f % 2 = 0 then f else f + 1

/-- `round(x, 10)` from `_order_signature`: round to ten decimal places. -/
def round10 (q : ℚ) : ℚ :=
  (round_half_even (q * 10000000000) : ℚ) / 10000000000

/-- The derived order signature of `TestRiskManager._order_signature`:
`(symbol, direction, offset, type, volume, round(price, 10))`. -/
structure OrderSig where
  symbol : String
  direction : String
  offset : String
  order_type : String
  volume : ℚ
  price : ℚ
deriving DecidableEq, Repr

def order_signature (req : OrderRequest) : OrderSig :=
  { symbol := req.symbol
    direction := req.direction
    offset := req.offset
    order_type := req.order_type
    volume := req.volume
    price := round10 req.price }

/-- The derived cancel signature of `register_cancel_request`:
`(orderid, symbol, exchange)`. -/
def cancel_signature (req : CancelRequest) : String × String × String :=
  (req.orderid, req.symbol, req.exchange)

/-- `m.get(k, 0)` on a dict modelled as an association list. -/
def getCount {α : Type} [DecidableEq α] (m : List (α × ℕ)) (k : α) : ℕ :=
  match m with
  | [] => 0
  | (a, n) :: t => if a = k then n else getCount t k

/-- `m[k] = m.get(k, 0) + 1` on a dict modelled as an association list. -/
def bump {α : Type} [DecidableEq α] (m : List (α × ℕ)) (k : α) : List (α × ℕ) :=
  match m with
  | [] => [(k, 1)]
  | (a, n) :: t => if a = k then (a, n + 1) :: t else (a, n) :: bump t k

/-- The mutable state of `TestRiskManager` (`src/core/risk.py`).  `contract`
stands for `self.tester.contract`, the reference contract the tick check
consults (`none` when there is no tester or no contract yet).  Counters are
`ℕ` (they are only ever incremented from 0 and reset to 0); thresholds are
`ℤ` (Python ints that `set_thresholds` may set to any integer). -/
structure TestRiskManager where
  active : Bool
  contract : Option Contract
  order_count : ℕ
  cancel_count : ℕ
  repeat_order_count : ℕ
  repeat_cancel_count : ℕ
  max_order_count : ℤ
  max_cancel_count : ℤ
  max_repeat_count : ℤ
  order_signature_count : List (OrderSig × ℕ)
  cancel_signature_count : List ((String × String × String) × ℕ)
  session_order_ids : List String
  last_log_order_count : ℤ
  last_log_cancel_count : ℤ
  warned_order_threshold : Bool
  warned_cancel_threshold : Bool
  warned_repeat_threshold : Bool
deriving DecidableEq, Repr

namespace TestRiskManager

/-- `TestRiskManager.__init__`: thresholds come from the configuration
(defaults 5, 5, 0), everything else starts empty/zero, `active` true. -/
def init (maxO maxC maxR : ℤ) (c : Option Contract) : TestRiskManager :=
  { active := true
    contract := c
    order_count := 0
    cancel_count := 0
    repeat_order_count := 0
    repeat_cancel_count := 0
    max_order_count := maxO
    max_cancel_count := maxC
    max_repeat_count := maxR
    order_signature_count := []
    cancel_signature_count := []
    session_order_ids := []
    last_log_order_count := -1
    last_log_cancel_count := -1
    warned_order_threshold := false
    warned_cancel_threshold := false
    warned_repeat_threshold := false }

/-- `_repeat_total`. -/
def repeat_total (rm : TestRiskManager) : ℕ :=
  rm.repeat_order_count + rm.repeat_cancel_count

/-- `_check_repeat_threshold`: return unchanged if already warned or the
threshold is `≤ 0`; otherwise latch when `repeat_total ≥ threshold`. -/
def check_repeat_threshold (rm : TestRiskManager) : TestRiskManager :=
  if rm.warned_repeat_threshold then rm
  else if rm.max_repeat_count ≤ 0 then rm
  else if rm.max_repeat_count ≤ (rm.repeat_total : ℤ) then
    { rm with warned_repeat_threshold := true }
  else rm

/-- `register_order`: record a session-scoped order id (a Python `set.add`). -/
def register_order (rm : TestRiskManager) (vt_orderid : String) : TestRiskManager :=
  if vt_orderid ∈ rm.session_order_ids then rm
  else { rm with session_order_ids := vt_orderid :: rm.session_order_ids }

/-- `register_cancel_request`: bump the cancel signature's count; from the
second occurrence on, count a repeat cancel and evaluate the repeat latch. -/
def register_cancel_request (rm : TestRiskManager) (req : CancelRequest) : TestRiskManager :=
  let sig := cancel_signature req
  let current := getCount rm.cancel_signature_count sig + 1
  let rm1 := { rm with cancel_signature_count := bump rm.cancel_signature_count sig }
  if 2 ≤ current then
    check_repeat_threshold { rm1 with repeat_cancel_count := rm1.repeat_cancel_count + 1 }
  else rm1

/-- `pymod x y` is Python's `x % y` for positive `y`: `x - y * floor (x / y)`.
For the positive doubles in the tick check this equals IEEE `fmod`, which is
exact, so the rational value is the very double the code computes. -/
def pymod (x y : ℚ) : ℚ := x - y * (⌊x / y⌋ : ℤ)

/-- The exact value of the IEEE-754 double denoted by the literal `1e-6`
used as the floating-point tolerance in `check_order`'s tick check. -/
def tick_eps : ℚ := 4722366482869645 / 4722366482869645213696

/-- Step 3 of `check_order`: the price-tick gate.  It applies only when a
reference contract is known, the request's symbol matches it and its tick is
positive; then the price must have `price % tick` within `1e-6` of `0` or of
`tick`. -/
def tick_ok (c : Option Contract) (req : OrderRequest) : Bool :=
  match c with
  | none => true
  | some ct =>
    if req.symbol = ct.symbol then
      if 0 < ct.pricetick then
        let remainder := pymod req.price ct.pricetick
        decide (|remainder| < tick_eps ∨ |remainder - ct.pricetick| < tick_eps)
      else true
    else true

/-- The straight-line tail of `check_order` once every gate has passed:
increment `order_count`, bump the order signature's count, count a repeat
from the second occurrence on and evaluate the repeat latch, then evaluate
the order-count threshold latch. -/
def order_accept_update (rm : TestRiskManager) (req : OrderRequest) : TestRiskManager :=
  let cnt := rm.order_count + 1
  let sig := order_signature req
  let current_sig := getCount rm.order_signature_count sig + 1
  let rm1 := { rm with
    order_count := cnt
    order_signature_count := bump rm.order_signature_count sig }
  let rm2 :=
    if 2 ≤ current_sig then
      check_repeat_threshold { rm1 with repeat_order_count := rm1.repeat_order_count + 1 }
    else rm1
  if 0 < rm2.max_order_count ∧ rm2.warned_order_threshold = false
      ∧ rm2.max_order_count ≤ (cnt : ℤ) then
    { rm2 with warned_order_threshold := true }
  else rm2

/-- `check_order`: the ordered gates — emergency stop, invalid symbol,
volume ceiling (with the `FundTest` exemption), price tick — each rejecting
with the state untouched; only the fully accepted path mutates state. -/
def check_order (rm : TestRiskManager) (req : OrderRequest) : Bool × TestRiskManager :=
  if rm.active = false then (false, rm)
  else if req.symbol = "INVALID_CODE" ∨ req.symbol = "INVALID" then (false, rm)
  else if 10000 ≤ req.volume ∧ req.reference ≠ "FundTest" then (false, rm)
  else if tick_ok rm.contract req = false then (false, rm)
  else (true, order_accept_update rm req)

/-- `check_cancel`: reject iff not `active`; no state change either way. -/
def check_cancel (rm : TestRiskManager) (_req : CancelRequest) : Bool × TestRiskManager :=
  if rm.active = false then (false, rm) else (true, rm)

/-- `on_order_submitted`: pure log-dedup hook; only the last-logged value
moves. -/
def on_order_submitted (rm : TestRiskManager) : TestRiskManager :=
  if (rm.order_count : ℤ) ≠ rm.last_log_order_count then
    { rm with last_log_order_count := (rm.order_count : ℤ) }
  else rm

/-- `on_order_cancelled`: ignore orders not created by this session;
otherwise count the cancel, refresh the log-dedup value and evaluate the
cancel-threshold latch. -/
def on_order_cancelled (rm : TestRiskManager) (vt_orderid : String) : TestRiskManager :=
  if vt_orderid ∈ rm.session_order_ids then
    let cc := rm.cancel_count + 1
    let rm1 := { rm with cancel_count := cc }
    let rm2 :=
      if (cc : ℤ) ≠ rm1.last_log_cancel_count then
        { rm1 with last_log_cancel_count := (cc : ℤ) }
      else rm1
    if 0 < rm2.max_cancel_count ∧ rm2.warned_cancel_threshold = false
        ∧ rm2.max_cancel_count ≤ (cc : ℤ) then
      { rm2 with warned_cancel_threshold := true }
    else rm2
  else rm

/-- `emergency_stop`: set `active` to false. -/
def emergency_stop (rm : TestRiskManager) : TestRiskManager :=
  { rm with active := false }

/-- `set_thresholds`: partial update (None leaves a threshold unchanged);
clears all three `warned*` latches. -/
def set_thresholds (rm : TestRiskManager)
    (max_order max_cancel max_repeat : Option ℤ) : TestRiskManager :=
  let rm1 :=
    match max_order with
    | some v => { rm with max_order_count := v }
    | none => rm
  let rm2 :=
    match max_cancel with
    | some v => { rm1 with max_cancel_count := v }
    | none => rm1
  let rm3 :=
    match max_repeat with
    | some v => { rm2 with max_repeat_count := v }
    | none => rm2
  { rm3 with
    warned_order_threshold := false
    warned_cancel_threshold := false
    warned_repeat_threshold := false }

/-- `get_thresholds`: the returned dict, as key/value pairs. -/
def get_thresholds (rm : TestRiskManager) : List (String × ℤ) :=
  [("max_order_count", rm.max_order_count),
   ("max_cancel_count", rm.max_cancel_count),
   ("max_repeat_count", rm.max_repeat_count)]

/-- `get_metrics`: the returned dict, as key/value pairs.  Note the source
returns exactly these five keys. -/
def get_metrics (rm : TestRiskManager) : List (String × ℕ) :=
  [("order_count", rm.order_count),
   ("cancel_count", rm.cancel_count),
   ("repeat_order_count", rm.repeat_order_count),
   ("repeat_cancel_count", rm.repeat_cancel_count),
   ("repeat_total", rm.repeat_total)]

/-- `reset_counters`: zero every counter, clear both signature maps and the
log-dedup values, clear all three `warned*` latches.  `active`, the
thresholds, the contract and `session_order_ids` are not touched. -/
def reset_counters (rm : TestRiskManager) : TestRiskManager :=
  { rm with
    order_count := 0
    cancel_count := 0
    repeat_order_count := 0
    repeat_cancel_count := 0
    last_log_order_count := -1
    last_log_cancel_count := -1
    order_signature_count := []
    cancel_signature_count := []
    warned_order_threshold := false
    warned_cancel_threshold := false
    warned_repeat_threshold := false }

end TestRiskManager

/-- The state-mutating operations of the risk monitor other than
`reset_counters` (the "between resets" operations of the invariant). -/
inductive RiskOp where
  | checkOrder (req : OrderRequest)
  | checkCancel (req : CancelRequest)
  | registerOrder (vt_orderid : String)
  | registerCancel (req : CancelRequest)
  | orderSubmitted
  | orderCancelled (vt_orderid : String)
  | emergencyStop
  | setThresholds (max_order max_cancel max_repeat : Option ℤ)

/-- One risk-monitor operation applied to the state (results dropped). -/
def riskStep (rm : TestRiskManager) : RiskOp → TestRiskManager
  | .checkOrder req => (rm.check_order req).2
  | .checkCancel req => (rm.check_cancel req).2
  | .registerOrder vt_orderid => rm.register_order vt_orderid
  | .registerCancel req => rm.register_cancel_request req
  | .orderSubmitted => rm.on_order_submitted
  | .orderCancelled vt_orderid => rm.on_order_cancelled vt_orderid
  | .emergencyStop => rm.emergency_stop
  | .setThresholds o c r => rm.set_thresholds o c r

/-! ## Worker controller (`src/worker.py`) -/

/-- The keys of `WorkerController._case_map`: the registered case ids. -/
def caseIds : List String :=
  ["2.1.1", "2.1.2.1", "2.1.2.2", "2.1.2.3",
   "2.2.1.1", "2.2.1.2", "2.2.1.3",
   "2.2.2.1", "2.2.2.2",
   "2.2.3.1", "2.2.3.2", "2.2.3.3",
   "2.3.1.1", "2.3.1.3", "2.3.1.5",
   "2.4.1.1", "2.4.1.2", "2.4.1.3",
   "2.4.2.1", "2.4.2.2", "2.4.2.3",
   "2.5.1.1", "2.5.1.2",
   "2.5.2.1", "2.5.2.2",
   "2.6.1"]

/-- Python's `str.strip()`: drop leading and trailing whitespace. -/
def pyStrip (s : String) : String :=
  String.mk (((s.data.dropWhile fun c => c.isWhitespace).reverse.dropWhile
    fun c => c.isWhitespace).reverse)

/-- The worker-controller state `run_case` touches: `task_lock` is the
single-slot `threading.Lock` (`true` = held), `current_case_id` is set later
by the asynchronously submitted `_wrapped_case`, not by `run_case` itself. -/
structure WorkerState where
  task_lock : Bool
  current_case_id : Option String
deriving DecidableEq, Repr

/-- `WorkerController.run_case`: strip the id; raise (`Except.error`) when it
is not in the case map — before the lock is touched; then try a non-blocking
acquire of the task lock: on failure return `false` at once, on success
submit the case to the one-worker pool and return `true` with the lock held. -/
def run_case (st : WorkerState) (case_id : String) : Except String (Bool × WorkerState) :=
  let cid := pyStrip case_id
  if cid ∈ caseIds then
    if st.task_lock then Except.ok (false, st)
    else Except.ok (true, { st with task_lock := true })
  else Except.error ("未找到测试项 " ++ cid)

/-- An RPC response as `handle_rpc_request` builds it for `RUN_CASE`:
`ok`, the optional `data.accepted` payload, and the optional `error`. -/
structure RpcResponse where
  ok : Bool
  accepted : Option Bool
  error : Option String
deriving DecidableEq, Repr

/-- The `RUN_CASE` branch of `WorkerController.handle_rpc_request` together
with its enclosing `try`/`except`: a raised exception becomes
`{ok := false, error := str(e)}` with the state untouched; otherwise the
reply is `{ok := true, data := {accepted := accepted}}`. -/
def handle_run_case (st : WorkerState) (case_id : String) : RpcResponse × WorkerState :=
  match run_case st case_id with
  | Except.error e => ({ ok := false, accepted := none, error := some e }, st)
  | Except.ok (acc, st') => ({ ok := true, accepted := some acc, error := none }, st')

/-! ## Process supervisor (`src/web/process_manager.py`) -/

/-- `ProcessManager` state: `running` models `is_running()` — the spawned
process handle exists and `poll()` reports it alive; `disconnect_mode` is the
latch that suppresses auto-restart. -/
structure ProcessManager where
  running : Bool
  disconnect_mode : Bool
deriving DecidableEq, Repr

namespace ProcessManager

/-- `start_worker(force)`: refuse (`false`) when in disconnect mode and not
forced; no-op success when already running; otherwise spawn the worker
process and succeed.  The second component is the state after the call. -/
def start_worker (pm : ProcessManager) (force : Bool) : Bool × ProcessManager :=
  if pm.disconnect_mode ∧ force = false then (false, pm)
  else if pm.running then (true, pm)
  else (true, { pm with running := true })

/-- `kill_worker`: unconditional forceful termination, tolerant of "already
dead"; always reports `true`. -/
def kill_worker (pm : ProcessManager) : Bool × ProcessManager :=
  (true, { pm with running := false })

/-- `restart_worker`: clear `disconnect_mode`, kill, settle, force-start. -/
def restart_worker (pm : ProcessManager) : Bool × ProcessManager :=
  let pm1 := { pm with disconnect_mode := false }
  let pm2 := (pm1.kill_worker).2
  pm2.start_worker true

/-- `enter_disconnect_mode`. -/
def enter_disconnect_mode (pm : ProcessManager) : ProcessManager :=
  { pm with disconnect_mode := true }

/-- `exit_disconnect_mode`. -/
def exit_disconnect_mode (pm : ProcessManager) : ProcessManager :=
  { pm with disconnect_mode := false }

end ProcessManager

/-! ## Concrete inputs for the numerical tick-check claims

The spec's price-tick scenario fixes tick `0.2` and prices `4660.0`,
`4660.1`, `4660.0001`.  Each rational below is the exact value of the
IEEE-754 double the Python literal denotes. -/

/-- The double denoted by `0.2`. -/
def tick02 : ℚ := 3602879701896397 / 18014398509481984

/-- The double denoted by `4660.1`. -/
def price4660_1 : ℚ := 2561917068299469 / 549755813888

/-- The double denoted by `4660.0001`. -/
def price4660_0001 : ℚ := 5123724295387323 / 1099511627776

/-- A reference contract whose tick size is `0.2`. -/
def contract02 : Contract := { symbol := "IF2509", pricetick := tick02 }

/-- An otherwise-valid order request on `contract02`'s symbol at price `p`. -/
def reqAtPrice (p : ℚ) : OrderRequest :=
  { symbol := "IF2509", direction := "LONG", offset := "OPEN",
    order_type := "LIMIT", volume := 1, price := p, reference := "" }

/-- A risk manager fresh from `init` (default config thresholds 5, 5, 0)
holding `contract02` as the tester's reference contract. -/
def rmTick : TestRiskManager := TestRiskManager.init 5 5 0 (some contract02)



/-! ## Concrete witness fixtures -/

/-- A valid order request (good symbol, volume 1, below every gate). -/
def reqW : OrderRequest :=
  { symbol := "IF2509", direction := "LONG", offset := "OPEN",
    order_type := "LIMIT", volume := 1, price := 1, reference := "" }

/-- A concrete cancel request. -/
def creqW : CancelRequest :=
  { orderid := "1", symbol := "IF2509", exchange := "CFFEX" }

/-- A reset-state risk manager with all three thresholds 2, no reference
contract, and one session-owned order id. -/
def rmW : TestRiskManager :=
  { active := true
    contract := none
    order_count := 0
    cancel_count := 0
    repeat_order_count := 0
    repeat_cancel_count := 0
    max_order_count := 2
    max_cancel_count := 2
    max_repeat_count := 2
    order_signature_count := []
    cancel_signature_count := []
    session_order_ids := ["GW.1"]
    last_log_order_count := -1
    last_log_cancel_count := -1
    warned_order_threshold := false
    warned_cancel_threshold := false
    warned_repeat_threshold := false }

/-- `rmW` after one registration of `creqW`'s signature. -/
def rmX : TestRiskManager :=
  { rmW with cancel_signature_count := [(cancel_signature creqW, 1)] }

/-- An order request whose volume reaches the ceiling, not exempted. -/
def reqBig : OrderRequest :=
  { symbol := "IF2509", direction := "LONG", offset := "OPEN",
    order_type := "LIMIT", volume := 20000, price := 1, reference := "" }

/-! ## Event traces

Iterated application of a single risk-monitor event, used to state the
threshold-latch properties: `order_trace` repeats one (accepted) order
submission, `cancel_trace` repeats one session-owned cancel callback, and
`rcancel_trace` repeats the registration of one identical cancel request. -/

def order_trace (req : OrderRequest) (rm : TestRiskManager) : ℕ → TestRiskManager
  | 0 => rm
  | n + 1 => ((order_trace req rm n).check_order req).2

def cancel_trace (vt_orderid : String) (rm : TestRiskManager) : ℕ → TestRiskManager
  | 0 => rm
  | n + 1 => (cancel_trace vt_orderid rm n).on_order_cancelled vt_orderid

def rcancel_trace (req : CancelRequest) (rm : TestRiskManager) : ℕ → TestRiskManager
  | 0 => rm
  | n + 1 => (rcancel_trace req rm n).register_cancel_request req

/-! ## Helper lemmas -/

open TestRiskManager

lemma getCount_bump_self {α : Type} [DecidableEq α] (m : List (α × ℕ)) (k : α) :
    getCount (bump m k) k = getCount m k + 1 := by
  induction m with
  | nil => simp [getCount, bump]
  | cons p t ih =>
    obtain ⟨a, n⟩ := p
    by_cases h : a = k
    · simp [getCount, bump, h]
    · simp [getCount, bump, h, ih]

/-- `_check_repeat_threshold` either leaves the state alone or only sets the
repeat latch. -/
lemma crt_cases (rm : TestRiskManager) :
    check_repeat_threshold rm = rm ∨
      check_repeat_threshold rm = { rm with warned_repeat_threshold := true } := by
  unfold check_repeat_threshold
  split
  · exact Or.inl rfl
  split
  · exact Or.inl rfl
  split
  · exact Or.inr rfl
  · exact Or.inl rfl

/-- The repeat latch after `_check_repeat_threshold`, as a formula. -/
lemma crt_warned (rm : TestRiskManager) :
    (check_repeat_threshold rm).warned_repeat_threshold =
      (rm.warned_repeat_threshold ||
        decide (0 < rm.max_repeat_count ∧ rm.max_repeat_count ≤ (rm.repeat_total : ℤ))) := by
  unfold check_repeat_threshold
  by_cases h1 : rm.warned_repeat_threshold
  · simp [h1]
  · by_cases h2 : rm.max_repeat_count ≤ 0
    · simp [h1, h2, not_lt.mpr h2]
    · by_cases h3 : rm.max_repeat_count ≤ (rm.repeat_total : ℤ)
      · simp [h1, h2, h3, not_le.mp h2]
      · simp [h1, h2, h3]

/-- The one-shot order latch update, as a formula. -/
lemma latch_step_order (rm2 : TestRiskManager) (cnt : ℤ) :
    (if 0 < rm2.max_order_count ∧ rm2.warned_order_threshold = false
        ∧ rm2.max_order_count ≤ cnt
      then { rm2 with warned_order_threshold := true }
      else rm2).warned_order_threshold
      = (rm2.warned_order_threshold
          || decide (0 < rm2.max_order_count ∧ rm2.max_order_count ≤ cnt)) := by
  by_cases hw : rm2.warned_order_threshold <;> by_cases hA : 0 < rm2.max_order_count <;>
    by_cases hB : rm2.max_order_count ≤ cnt <;> simp [hw, hA, hB]

/-- The one-shot cancel latch update, as a formula. -/
lemma latch_step_cancel (rm2 : TestRiskManager) (cnt : ℤ) :
    (if 0 < rm2.max_cancel_count ∧ rm2.warned_cancel_threshold = false
        ∧ rm2.max_cancel_count ≤ cnt
      then { rm2 with warned_cancel_threshold := true }
      else rm2).warned_cancel_threshold
      = (rm2.warned_cancel_threshold
          || decide (0 < rm2.max_cancel_count ∧ rm2.max_cancel_count ≤ cnt)) := by
  by_cases hw : rm2.warned_cancel_threshold <;> by_cases hA : 0 < rm2.max_cancel_count <;>
    by_cases hB : rm2.max_cancel_count ≤ cnt <;> simp [hw, hA, hB]

/-- Fields of the accepted-order update other than the order latch. -/
lemma oau_frame (rm : TestRiskManager) (req : OrderRequest) :
    (order_accept_update rm req).order_count = rm.order_count + 1 ∧
    (order_accept_update rm req).active = rm.active ∧
    (order_accept_update rm req).contract = rm.contract ∧
    (order_accept_update rm req).max_order_count = rm.max_order_count ∧
    (order_accept_update rm req).max_cancel_count = rm.max_cancel_count ∧
    (order_accept_update rm req).max_repeat_count = rm.max_repeat_count ∧
    (order_accept_update rm req).cancel_count = rm.cancel_count ∧
    (order_accept_update rm req).session_order_ids = rm.session_order_ids ∧
    (order_accept_update rm req).warned_cancel_threshold = rm.warned_cancel_threshold ∧
    (order_accept_update rm req).cancel_signature_count = rm.cancel_signature_count ∧
    (order_accept_update rm req).order_signature_count
      = bump rm.order_signature_count (order_signature req) := by
  unfold order_accept_update
  dsimp only
  split
  · rcases crt_cases { rm with
      order_count := rm.order_count + 1
      order_signature_count := bump rm.order_signature_count (order_signature req)
      repeat_order_count := rm.repeat_order_count + 1 } with h | h <;> rw [h] <;>
      exact (by split <;> exact ⟨rfl, rfl, rfl, rfl, rfl, rfl, rfl, rfl, rfl, rfl, rfl⟩)
  · split <;> exact ⟨rfl, rfl, rfl, rfl, rfl, rfl, rfl, rfl, rfl, rfl, rfl⟩

/-- The order latch after an accepted order, as a formula. -/
lemma oau_warned_order (rm : TestRiskManager) (req : OrderRequest) :
    (order_accept_update rm req).warned_order_threshold =
      (rm.warned_order_threshold ||
        decide (0 < rm.max_order_count
          ∧ rm.max_order_count ≤ ((rm.order_count + 1 : ℕ) : ℤ))) := by
  unfold order_accept_update
  dsimp only
  split
  · rcases crt_cases { rm with
      order_count := rm.order_count + 1
      order_signature_count := bump rm.order_signature_count (order_signature req)
      repeat_order_count := rm.repeat_order_count + 1 } with h | h <;> rw [h] <;>
      exact latch_step_order _ _
  · exact latch_step_order _ _

/-- An accepted order whose signature was already seen counts one repeat. -/
lemma oau_repeat_of_seen (rm : TestRiskManager) (req : OrderRequest)
    (h : 1 ≤ getCount rm.order_signature_count (order_signature req)) :
    (order_accept_update rm req).repeat_order_count = rm.repeat_order_count + 1 := by
  unfold order_accept_update
  dsimp only
  rw [if_pos (by omega : 2 ≤ getCount rm.order_signature_count (order_signature req) + 1)]
  rcases crt_cases { rm with
      order_count := rm.order_count + 1
      order_signature_count := bump rm.order_signature_count (order_signature req)
      repeat_order_count := rm.repeat_order_count + 1 } with h' | h' <;> rw [h'] <;>
    exact (by split <;> rfl)

/-- An accepted order never decreases the repeat totals. -/
lemma oau_repeat_total_ge (rm : TestRiskManager) (req : OrderRequest) :
    rm.repeat_total ≤ (order_accept_update rm req).repeat_total := by
  unfold order_accept_update
  dsimp only
  split
  · rcases crt_cases { rm with
      order_count := rm.order_count + 1
      order_signature_count := bump rm.order_signature_count (order_signature req)
      repeat_order_count := rm.repeat_order_count + 1 } with h' | h' <;> rw [h'] <;>
      exact (by split <;> simp [repeat_total])
  · split <;> simp [repeat_total]

/-- When all four gates pass, `check_order` accepts and performs exactly the
accepted-order update. -/
lemma check_order_accept (rm : TestRiskManager) (req : OrderRequest)
    (h1 : rm.active = true)
    (h2 : req.symbol ≠ "INVALID_CODE") (h3 : req.symbol ≠ "INVALID")
    (h4 : ¬(10000 ≤ req.volume ∧ req.reference ≠ "FundTest"))
    (h5 : tick_ok rm.contract req = true) :
    rm.check_order req = (true, order_accept_update rm req) := by
  unfold check_order
  rw [if_neg (by simp [h1]), if_neg (by simp [h2, h3]), if_neg h4,
    if_neg (by simp [h5])]

/-- Every rejecting path of `check_order` leaves the state untouched. -/
lemma check_order_reject_frame (rm : TestRiskManager) (req : OrderRequest) :
    (rm.check_order req).1 = false → (rm.check_order req).2 = rm := by
  unfold check_order
  split
  · intro _; rfl
  split
  · intro _; rfl
  split
  · intro _; rfl
  split
  · intro _; rfl
  · intro h; exact absurd h (by simp)

/-- `check_cancel` never mutates the state. -/
lemma check_cancel_snd (rm : TestRiskManager) (req : CancelRequest) :
    (rm.check_cancel req).2 = rm := by
  unfold check_cancel
  split <;> rfl

/-- A cancel callback for an order this session does not own is ignored. -/
lemma occ_not_mem (rm : TestRiskManager) (vt : String)
    (h : vt ∉ rm.session_order_ids) :
    rm.on_order_cancelled vt = rm := by
  unfold on_order_cancelled
  rw [if_neg h]

/-- Fields of a counted cancel callback other than the cancel latch. -/
lemma occ_frame (rm : TestRiskManager) (vt : String)
    (h : vt ∈ rm.session_order_ids) :
    (rm.on_order_cancelled vt).cancel_count = rm.cancel_count + 1 ∧
    (rm.on_order_cancelled vt).session_order_ids = rm.session_order_ids ∧
    (rm.on_order_cancelled vt).max_cancel_count = rm.max_cancel_count ∧
    (rm.on_order_cancelled vt).active = rm.active ∧
    (rm.on_order_cancelled vt).contract = rm.contract ∧
    (rm.on_order_cancelled vt).repeat_order_count = rm.repeat_order_count ∧
    (rm.on_order_cancelled vt).repeat_cancel_count = rm.repeat_cancel_count := by
  unfold on_order_cancelled
  rw [if_pos h]
  dsimp only
  split <;> split <;> exact ⟨rfl, rfl, rfl, rfl, rfl, rfl, rfl⟩

/-- The cancel latch after a counted cancel callback, as a formula. -/
lemma occ_warned_cancel (rm : TestRiskManager) (vt : String)
    (h : vt ∈ rm.session_order_ids) :
    (rm.on_order_cancelled vt).warned_cancel_threshold =
      (rm.warned_cancel_threshold ||
        decide (0 < rm.max_cancel_count
          ∧ rm.max_cancel_count ≤ ((rm.cancel_count + 1 : ℕ) : ℤ))) := by
  unfold on_order_cancelled
  rw [if_pos h]
  dsimp only
  split <;> exact latch_step_cancel _ _

/-- Registering a cancel whose signature is new only bumps the map. -/
lemma rcr_new (rm : TestRiskManager) (req : CancelRequest)
    (h : getCount rm.cancel_signature_count (cancel_signature req) = 0) :
    rm.register_cancel_request req =
      { rm with cancel_signature_count := bump rm.cancel_signature_count (cancel_signature req) } := by
  unfold register_cancel_request
  dsimp only
  rw [if_neg (by omega)]

/-- Registering a cancel whose signature was already seen counts a repeat
and evaluates the repeat latch. -/
lemma rcr_seen (rm : TestRiskManager) (req : CancelRequest)
    (h : 1 ≤ getCount rm.cancel_signature_count (cancel_signature req)) :
    rm.register_cancel_request req =
      check_repeat_threshold { rm with
        cancel_signature_count := bump rm.cancel_signature_count (cancel_signature req)
        repeat_cancel_count := rm.repeat_cancel_count + 1 } := by
  unfold register_cancel_request
  dsimp only
  rw [if_pos (by omega)]

/-- `set_thresholds` clears the three latches and touches nothing but the
thresholds. -/
lemma set_thresholds_frame (rm : TestRiskManager) (o c r : Option ℤ) :
    (rm.set_thresholds o c r).warned_order_threshold = false ∧
    (rm.set_thresholds o c r).warned_cancel_threshold = false ∧
    (rm.set_thresholds o c r).warned_repeat_threshold = false ∧
    (rm.set_thresholds o c r).active = rm.active ∧
    (rm.set_thresholds o c r).contract = rm.contract ∧
    (rm.set_thresholds o c r).order_count = rm.order_count ∧
    (rm.set_thresholds o c r).cancel_count = rm.cancel_count ∧
    (rm.set_thresholds o c r).repeat_order_count = rm.repeat_order_count ∧
    (rm.set_thresholds o c r).repeat_cancel_count = rm.repeat_cancel_count ∧
    (rm.set_thresholds o c r).order_signature_count = rm.order_signature_count ∧
    (rm.set_thresholds o c r).cancel_signature_count = rm.cancel_signature_count ∧
    (rm.set_thresholds o c r).session_order_ids = rm.session_order_ids := by
  unfold set_thresholds
  rcases o <;> rcases c <;> rcases r <;>
    exact ⟨rfl, rfl, rfl, rfl, rfl, rfl, rfl, rfl, rfl, rfl, rfl, rfl⟩



lemma decide_absorb_le (T m n : ℕ) (hmn : m ≤ n) :
    (decide (0 < T ∧ T ≤ m) || decide (0 < T ∧ T ≤ n)) = decide (0 < T ∧ T ≤ n) := by
  by_cases ha : 0 < T ∧ T ≤ m
  · have hb : 0 < T ∧ T ≤ n := ⟨ha.1, le_trans ha.2 hmn⟩
    simp [ha, hb]
  · simp [ha]

lemma order_trace_spec (req : OrderRequest) (rm : TestRiskManager) (T : ℕ)
    (hA : rm.active = true)
    (h2 : req.symbol ≠ "INVALID_CODE") (h3 : req.symbol ≠ "INVALID")
    (h4 : ¬(10000 ≤ req.volume ∧ req.reference ≠ "FundTest"))
    (h5 : tick_ok rm.contract req = true)
    (hT : rm.max_order_count = (T : ℤ))
    (hc : rm.order_count = 0) (hw : rm.warned_order_threshold = false) :
    ∀ n, (order_trace req rm n).order_count = n
      ∧ (order_trace req rm n).active = true
      ∧ (order_trace req rm n).contract = rm.contract
      ∧ (order_trace req rm n).max_order_count = (T : ℤ)
      ∧ (order_trace req rm n).warned_order_threshold = decide (0 < T ∧ T ≤ n) := by
  intro n
  induction n with
  | zero =>
    refine ⟨hc, hA, rfl, hT, ?_⟩
    show rm.warned_order_threshold = _
    rw [hw]
    exact (decide_eq_false (by omega)).symm
  | succ n ih =>
    obtain ⟨ihc, ihA, ihctr, ihT, ihw⟩ := ih
    simp only [order_trace]
    rw [check_order_accept _ _ ihA h2 h3 h4 (by rw [ihctr]; exact h5)]
    dsimp only
    obtain ⟨f1, f2, f3, f4, -, -, -, -, -, -, -⟩ := oau_frame (order_trace req rm n) req
    refine ⟨?_, ?_, ?_, ?_, ?_⟩
    · rw [f1, ihc]
    · rw [f2, ihA]
    · rw [f3, ihctr]
    · rw [f4, ihT]
    · rw [oau_warned_order, ihw, ihT, ihc]
      rw [decide_eq_decide.mpr
        (show (0 < (T:ℤ) ∧ (T:ℤ) ≤ ((n + 1 : ℕ) : ℤ)) ↔ (0 < T ∧ T ≤ n + 1) by omega)]
      exact decide_absorb_le T n (n + 1) (Nat.le_succ n)


lemma cancel_trace_spec (vt : String) (rm : TestRiskManager) (T : ℕ)
    (hvt : vt ∈ rm.session_order_ids)
    (hT : rm.max_cancel_count = (T : ℤ))
    (hc : rm.cancel_count = 0) (hw : rm.warned_cancel_threshold = false) :
    ∀ n, (cancel_trace vt rm n).cancel_count = n
      ∧ vt ∈ (cancel_trace vt rm n).session_order_ids
      ∧ (cancel_trace vt rm n).max_cancel_count = (T : ℤ)
      ∧ (cancel_trace vt rm n).warned_cancel_threshold = decide (0 < T ∧ T ≤ n) := by
  intro n
  induction n with
  | zero =>
    refine ⟨hc, hvt, hT, ?_⟩
    show rm.warned_cancel_threshold = _
    rw [hw]
    exact (decide_eq_false (by omega)).symm
  | succ n ih =>
    obtain ⟨ihc, ihvt, ihT, ihw⟩ := ih
    simp only [cancel_trace]
    obtain ⟨f1, f2, f3, -, -, -, -⟩ := occ_frame (cancel_trace vt rm n) vt ihvt
    refine ⟨?_, ?_, ?_, ?_⟩
    · rw [f1, ihc]
    · rw [f2]; exact ihvt
    · rw [f3, ihT]
    · rw [occ_warned_cancel _ _ ihvt, ihw, ihT, ihc]
      rw [decide_eq_decide.mpr
        (show (0 < (T:ℤ) ∧ (T:ℤ) ≤ ((n + 1 : ℕ) : ℤ)) ↔ (0 < T ∧ T ≤ n + 1) by omega)]
      exact decide_absorb_le T n (n + 1) (Nat.le_succ n)

lemma rcancel_trace_spec (req : CancelRequest) (rm : TestRiskManager) (T : ℕ)
    (hT : rm.max_repeat_count = (T : ℤ))
    (hsig : getCount rm.cancel_signature_count (cancel_signature req) = 0)
    (hro : rm.repeat_order_count = 0) (hrc : rm.repeat_cancel_count = 0)
    (hw : rm.warned_repeat_threshold = false) :
    ∀ n, getCount (rcancel_trace req rm n).cancel_signature_count (cancel_signature req) = n
      ∧ (rcancel_trace req rm n).repeat_order_count = 0
      ∧ (rcancel_trace req rm n).repeat_cancel_count = n - 1
      ∧ (rcancel_trace req rm n).max_repeat_count = (T : ℤ)
      ∧ (rcancel_trace req rm n).warned_repeat_threshold = decide (0 < T ∧ T ≤ n - 1) := by
  intro n
  induction n with
  | zero =>
    refine ⟨hsig, hro, hrc, hT, ?_⟩
    show rm.warned_repeat_threshold = _
    rw [hw]
    exact (decide_eq_false (by omega)).symm
  | succ n ih =>
    obtain ⟨ihsig, ihro, ihrc, ihT, ihw⟩ := ih
    simp only [rcancel_trace]
    rcases Nat.eq_zero_or_pos n with hn | hn
    · subst hn
      rw [rcr_new _ _ ihsig]
      refine ⟨?_, ihro, ihrc, ihT, ?_⟩
      · show getCount (bump (rcancel_trace req rm 0).cancel_signature_count
          (cancel_signature req)) (cancel_signature req) = 1
        rw [getCount_bump_self, ihsig]
      · show (rcancel_trace req rm 0).warned_repeat_threshold = _
        rw [ihw]
    · rw [rcr_seen _ _ (by omega)]
      refine ⟨?_, ?_, ?_, ?_, ?_⟩
      · rcases crt_cases { rcancel_trace req rm n with
          cancel_signature_count := bump (rcancel_trace req rm n).cancel_signature_count (cancel_signature req)
          repeat_cancel_count := (rcancel_trace req rm n).repeat_cancel_count + 1 } with h | h <;>
          rw [h] <;>
          · show getCount (bump (rcancel_trace req rm n).cancel_signature_count
              (cancel_signature req)) (cancel_signature req) = n + 1
            rw [getCount_bump_self, ihsig]
      · rcases crt_cases { rcancel_trace req rm n with
          cancel_signature_count := bump (rcancel_trace req rm n).cancel_signature_count (cancel_signature req)
          repeat_cancel_count := (rcancel_trace req rm n).repeat_cancel_count + 1 } with h | h <;>
          rw [h] <;> exact ihro
      · rcases crt_cases { rcancel_trace req rm n with
          cancel_signature_count := bump (rcancel_trace req rm n).cancel_signature_count (cancel_signature req)
          repeat_cancel_count := (rcancel_trace req rm n).repeat_cancel_count + 1 } with h | h <;>
          rw [h] <;>
          · show (rcancel_trace req rm n).repeat_cancel_count + 1 = n + 1 - 1
            omega
      · rcases crt_cases { rcancel_trace req rm n with
          cancel_signature_count := bump (rcancel_trace req rm n).cancel_signature_count (cancel_signature req)
          repeat_cancel_count := (rcancel_trace req rm n).repeat_cancel_count + 1 } with h | h <;>
          rw [h] <;> exact ihT
      · rw [crt_warned]
        show ((rcancel_trace req rm n).warned_repeat_threshold
            || decide (0 < (rcancel_trace req rm n).max_repeat_count
                ∧ (rcancel_trace req rm n).max_repeat_count
                  ≤ (((rcancel_trace req rm n).repeat_order_count
                      + ((rcancel_trace req rm n).repeat_cancel_count + 1) : ℕ) : ℤ)))
          = decide (0 < T ∧ T ≤ n + 1 - 1)
        rw [ihw, ihro, ihT, ihrc]
        rw [decide_eq_decide.mpr
          (show (0 < (T:ℤ) ∧ (T:ℤ) ≤ ((0 + (n - 1 + 1) : ℕ) : ℤ)) ↔ (0 < T ∧ T ≤ n) by omega)]
        rw [show n + 1 - 1 = n from rfl]
        exact decide_absorb_le T (n - 1) n (by omega)



/-- `check_order` either rejects untouched or accepts with the update. -/
lemma check_order_cases (rm : TestRiskManager) (req : OrderRequest) :
    rm.check_order req = (false, rm)
      ∨ rm.check_order req = (true, order_accept_update rm req) := by
  unfold check_order
  split
  · exact Or.inl rfl
  split
  · exact Or.inl rfl
  split
  · exact Or.inl rfl
  split
  · exact Or.inl rfl
  · exact Or.inr rfl

/-- `_check_repeat_threshold` does not change the repeat totals. -/
lemma crt_repeat_total_eq (s : TestRiskManager) :
    (check_repeat_threshold s).repeat_total = s.repeat_total := by
  rcases crt_cases s with h | h
  · rw [h]
  · rw [h]; rfl

/-- No operation between resets decreases `repeat_total`. -/
lemma repeat_total_mono (rm : TestRiskManager) (op : RiskOp) :
    rm.repeat_total ≤ (riskStep rm op).repeat_total := by
  cases op with
  | checkOrder req =>
    simp only [riskStep]
    rcases check_order_cases rm req with h | h <;> rw [h]
    exact oau_repeat_total_ge rm req
  | checkCancel req =>
    simp only [riskStep]
    rw [check_cancel_snd]
  | registerOrder vt =>
    simp only [riskStep]
    unfold register_order
    split
    · exact le_refl _
    · exact le_refl _
  | registerCancel req =>
    simp only [riskStep]
    unfold register_cancel_request
    dsimp only
    split
    · rw [crt_repeat_total_eq]
      show rm.repeat_total ≤ rm.repeat_total + 1
      exact Nat.le_succ _
    · exact le_refl _
  | orderSubmitted =>
    simp only [riskStep]
    unfold on_order_submitted
    split
    · exact le_refl _
    · exact le_refl _
  | orderCancelled vt =>
    simp only [riskStep]
    by_cases h : vt ∈ rm.session_order_ids
    · obtain ⟨-, -, -, -, -, f6, f7⟩ := occ_frame rm vt h
      unfold repeat_total
      rw [f6, f7]
    · rw [occ_not_mem rm vt h]
  | emergencyStop =>
    simp only [riskStep]
    exact le_refl _
  | setThresholds o c r =>
    simp only [riskStep]
    obtain ⟨-, -, -, -, -, -, -, f8, f9, -, -, -⟩ := set_thresholds_frame rm o c r
    unfold repeat_total
    rw [f8, f9]

/-- Claim C6: each accepted order or registered cancel submission increments
its signature's occurrence count by exactly one; the second and every
subsequent submission with an identical signature increments
`repeat_order_count` (resp. `repeat_cancel_count`) by exactly 1; and the sum
`repeat_order_count + repeat_cancel_count` is monotonically non-decreasing
under every risk-monitor operation between resets. -/
theorem signature_repeat_accounting :
    (∀ (rm : TestRiskManager) (req : OrderRequest), (rm.check_order req).1 = true →
        getCount (rm.check_order req).2.order_signature_count (order_signature req)
          = getCount rm.order_signature_count (order_signature req) + 1)
  ∧ (∀ (rm : TestRiskManager) (req : CancelRequest),
        getCount (rm.register_cancel_request req).cancel_signature_count (cancel_signature req)
          = getCount rm.cancel_signature_count (cancel_signature req) + 1)
  ∧ (∀ (rm : TestRiskManager) (req : OrderRequest), (rm.check_order req).1 = true →
        1 ≤ getCount rm.order_signature_count (order_signature req) →
        (rm.check_order req).2.repeat_order_count = rm.repeat_order_count + 1)
  ∧ (∀ (rm : TestRiskManager) (req : CancelRequest),
        1 ≤ getCount rm.cancel_signature_count (cancel_signature req) →
        (rm.register_cancel_request req).repeat_cancel_count = rm.repeat_cancel_count + 1)
  ∧ (∀ (rm : TestRiskManager) (op : RiskOp),
        rm.repeat_total ≤ (riskStep rm op).repeat_total) := by
  refine ⟨?_, ?_, ?_, ?_, repeat_total_mono⟩
  · intro rm req h
    rcases check_order_cases rm req with hc | hc
    · rw [hc] at h; simp at h
    · rw [hc]
      obtain ⟨-, -, -, -, -, -, -, -, -, -, f11⟩ := oau_frame rm req
      show getCount (order_accept_update rm req).order_signature_count (order_signature req) = _
      rw [f11, getCount_bump_self]
  · intro rm req
    rcases Nat.eq_zero_or_pos (getCount rm.cancel_signature_count (cancel_signature req))
      with h0 | h0
    · rw [rcr_new _ _ h0]
      show getCount (bump rm.cancel_signature_count (cancel_signature req))
        (cancel_signature req) = _
      rw [getCount_bump_self]
    · rw [rcr_seen _ _ h0]
      rcases crt_cases { rm with
        cancel_signature_count := bump rm.cancel_signature_count (cancel_signature req)
        repeat_cancel_count := rm.repeat_cancel_count + 1 } with h | h <;> rw [h] <;>
        · show getCount (bump rm.cancel_signature_count (cancel_signature req))
            (cancel_signature req) = _
          rw [getCount_bump_self]
  · intro rm req h hseen
    rcases check_order_cases rm req with hc | hc
    · rw [hc] at h; simp at h
    · rw [hc]
      exact oau_repeat_of_seen rm req hseen
  · intro rm req hseen
    rw [rcr_seen _ _ hseen]
    rcases crt_cases { rm with
      cancel_signature_count := bump rm.cancel_signature_count (cancel_signature req)
      repeat_cancel_count := rm.repeat_cancel_count + 1 } with h | h <;> rw [h]

/-- Claim C7: after `emergency_stop` (`active = false`), `check_order`
returns false for every request with no side effects at all, and
`check_cancel` likewise returns false; after `active` is manually restored
to true, the same previously valid request is accepted and increments
`order_count` by exactly 1. -/
theorem emergency_stop_spec (rm : TestRiskManager) (req : OrderRequest) (creq : CancelRequest)
    (h2 : req.symbol ≠ "INVALID_CODE") (h3 : req.symbol ≠ "INVALID")
    (h4 : ¬(10000 ≤ req.volume ∧ req.reference ≠ "FundTest"))
    (h5 : tick_ok rm.contract req = true) :
    rm.emergency_stop.check_order req = (false, rm.emergency_stop)
  ∧ rm.emergency_stop.check_cancel creq = (false, rm.emergency_stop)
  ∧ ({ rm.emergency_stop with active := true }.check_order req).1 = true
  ∧ ({ rm.emergency_stop with active := true }.check_order req).2.order_count
      = rm.order_count + 1 := by
  refine ⟨?_, ?_, ?_, ?_⟩
  · unfold emergency_stop check_order
    rw [if_pos rfl]
  · unfold emergency_stop check_cancel
    rw [if_pos rfl]
  · rw [check_order_accept { rm.emergency_stop with active := true } req rfl h2 h3 h4 h5]
  · rw [check_order_accept { rm.emergency_stop with active := true } req rfl h2 h3 h4 h5]
    exact (oau_frame _ req).1

/-- Claim C8: `check_order` rejects every request whose volume reaches the
configured ceiling (volume ≥ 10000) unless the request carries the explicit
exemption reference `"FundTest"`; with the exemption the volume gate is
bypassed and an otherwise valid request is accepted; and on every rejecting
path of `check_order` the state — counters and signature maps included — is
left completely unchanged. -/
theorem volume_gate_spec :
    (∀ (rm : TestRiskManager) (req : OrderRequest),
        rm.active = true →
        req.symbol ≠ "INVALID_CODE" → req.symbol ≠ "INVALID" →
        10000 ≤ req.volume → req.reference ≠ "FundTest" →
        rm.check_order req = (false, rm))
  ∧ (∀ (rm : TestRiskManager) (req : OrderRequest),
        rm.active = true →
        req.symbol ≠ "INVALID_CODE" → req.symbol ≠ "INVALID" →
        req.reference = "FundTest" → tick_ok rm.contract req = true →
        (rm.check_order req).1 = true)
  ∧ (∀ (rm : TestRiskManager) (req : OrderRequest),
        (rm.check_order req).1 = false → (rm.check_order req).2 = rm) := by
  refine ⟨?_, ?_, check_order_reject_frame⟩
  · intro rm req h1 hs2 hs3 hv hr
    unfold check_order
    rw [if_neg (by simp [h1]), if_neg (by simp [hs2, hs3]), if_pos ⟨hv, hr⟩]
  · intro rm req h1 hs2 hs3 hr h5
    rw [check_order_accept _ _ h1 hs2 hs3 (fun hc => hc.2 hr) h5]




/-- Claim C1: `run_case` with a known case id performs a non-blocking
acquire of the single-slot task lock: it returns accepted = true if and only
if the lock was free (and then holds the lock, having submitted the case),
and returns accepted = false at once when a case is already running, so of
two racing `run_case` calls — serialized by the lock's atomic acquire —
never both are accepted. -/
theorem run_case_single_slot (st : WorkerState) (id1 id2 : String)
    (h1 : pyStrip id1 ∈ caseIds) (h2 : pyStrip id2 ∈ caseIds) :
    (st.task_lock = false →
        run_case st id1 = Except.ok (true, { st with task_lock := true }))
  ∧ (st.task_lock = true → run_case st id1 = Except.ok (false, st))
  ∧ (∀ acc st', run_case st id1 = Except.ok (acc, st') →
        (acc = true ↔ st.task_lock = false))
  ∧ (∀ st' st'', run_case st id1 = Except.ok (true, st') →
        run_case st' id2 ≠ Except.ok (true, st'')) := by
  refine ⟨?_, ?_, ?_, ?_⟩
  · intro hfree
    unfold run_case
    rw [if_pos h1, if_neg (by simp [hfree])]
  · intro hheld
    unfold run_case
    rw [if_pos h1, if_pos hheld]
  · intro acc st' hrun
    unfold run_case at hrun
    rw [if_pos h1] at hrun
    by_cases hl : st.task_lock
    · rw [if_pos hl] at hrun
      simp only [Except.ok.injEq, Prod.mk.injEq] at hrun
      rw [← hrun.1, hl]
      simp
    · rw [if_neg hl] at hrun
      simp only [Except.ok.injEq, Prod.mk.injEq] at hrun
      have hfalse : st.task_lock = false := by
        cases hsl : st.task_lock
        · rfl
        · exact absurd hsl hl
      rw [← hrun.1, hfalse]
      simp
  · intro st' st'' hrun
    unfold run_case at hrun ⊢
    rw [if_pos h1] at hrun
    by_cases hl : st.task_lock
    · rw [if_pos hl] at hrun
      simp at hrun
    · rw [if_neg hl] at hrun
      simp only [Except.ok.injEq, Prod.mk.injEq] at hrun
      rw [if_pos h2, ← hrun.2]
      rw [if_pos (show WorkerState.task_lock { st with task_lock := true } = true from rfl)]
      simp

/-- Claim C10: a RUN_CASE request whose (stripped) case id is not in the
case registry makes `run_case` raise before touching the task lock, and the
RPC handler converts the exception into an error reply
`{ok := false, error := ...}` — not `{accepted := false}` — leaving the
state untouched, so a subsequent RUN_CASE with a valid id on the free lock
is still accepted. -/
theorem run_case_unknown_id_spec (st : WorkerState) (bad good : String)
    (hbad : pyStrip bad ∉ caseIds) (hgood : pyStrip good ∈ caseIds)
    (hfree : st.task_lock = false) :
    handle_run_case st bad
      = ({ ok := false, accepted := none,
           error := some ("未找到测试项 " ++ pyStrip bad) }, st)
  ∧ (handle_run_case (handle_run_case st bad).2 good).1
      = { ok := true, accepted := some true, error := none } := by
  have hrc : run_case st bad = Except.error ("未找到测试项 " ++ pyStrip bad) := by
    unfold run_case
    rw [if_neg hbad]
  have hh : handle_run_case st bad
      = ({ ok := false, accepted := none,
           error := some ("未找到测试项 " ++ pyStrip bad) }, st) := by
    unfold handle_run_case
    rw [hrc]
  refine ⟨hh, ?_⟩
  rw [hh]
  dsimp only
  unfold handle_run_case run_case
  rw [if_pos hgood, if_neg (by simp [hfree])]

/-- Claim C5, counterexample: a worker that is already running but has
`disconnect_mode` set refutes the claim's "no-op returning success whenever
the worker is already running": `start_worker false` checks the
disconnect-mode latch first and returns false. -/
theorem start_worker_refuses_despite_running :
    ProcessManager.start_worker { running := true, disconnect_mode := true } false
      = (false, { running := true, disconnect_mode := true }) := by
  unfold ProcessManager.start_worker
  rw [if_pos ⟨rfl, rfl⟩]

/-- Claim C5, amended: `start_worker` with force = false is a no-op
returning success whenever the worker is already running and
`disconnect_mode` is clear; it refuses to start (returns false, spawning
nothing) whenever `disconnect_mode` is set and force is false — this refusal
takes precedence over the already-running no-op; and `restart_worker` always
clears `disconnect_mode` before killing and force-starting, so it succeeds
(worker running, disconnect mode clear) from every state, disconnect mode
included. -/
theorem start_restart_worker_spec (pm : ProcessManager) :
    (pm.disconnect_mode = false → pm.running = true → pm.start_worker false = (true, pm))
  ∧ (pm.disconnect_mode = true → pm.start_worker false = (false, pm))
  ∧ pm.restart_worker = (true, { running := true, disconnect_mode := false }) := by
  refine ⟨?_, ?_, ?_⟩
  · intro hd hr
    unfold ProcessManager.start_worker
    rw [if_neg (by simp [hd]), if_pos hr]
  · intro hd
    unfold ProcessManager.start_worker
    rw [if_pos ⟨hd, rfl⟩]
  · unfold ProcessManager.restart_worker ProcessManager.kill_worker ProcessManager.start_worker
    dsimp only
    rw [if_neg (by simp), if_neg (by simp)]

/-- Claim C9: for every state, `reset_counters` zeroes every counter,
clears both signature maps and all three `warned*` latches, and leaves both
`active` and all three thresholds unchanged, so `get_metrics` afterwards
returns all-zero counters while `get_thresholds` returns the same values as
before the reset. -/
theorem reset_counters_spec (rm : TestRiskManager) :
    (rm.reset_counters).get_metrics
      = [("order_count", 0), ("cancel_count", 0), ("repeat_order_count", 0),
         ("repeat_cancel_count", 0), ("repeat_total", 0)]
  ∧ (rm.reset_counters).get_thresholds = rm.get_thresholds
  ∧ (rm.reset_counters).active = rm.active
  ∧ (rm.reset_counters).max_order_count = rm.max_order_count
  ∧ (rm.reset_counters).max_cancel_count = rm.max_cancel_count
  ∧ (rm.reset_counters).max_repeat_count = rm.max_repeat_count
  ∧ (rm.reset_counters).order_signature_count = []
  ∧ (rm.reset_counters).cancel_signature_count = []
  ∧ (rm.reset_counters).warned_order_threshold = false
  ∧ (rm.reset_counters).warned_cancel_threshold = false
  ∧ (rm.reset_counters).warned_repeat_threshold = false :=
  ⟨rfl, rfl, rfl, rfl, rfl, rfl, rfl, rfl, rfl, rfl, rfl⟩

/-- Claim C2 (code bug): `TestRiskManager` in `src/core/risk.py` defines
no `rejection_count` field and no `on_order_rejected` method at all, even
though `TestEngine._process_rejection` calls `risk_manager.on_order_rejected`
and the repository's own test
(`src/tests/test_error_code_smoke.py::test_risk_manager_rejection_counter`)
asserts both exist and that `get_metrics` contains a `rejection_count` key.
This theorem evaluates the code's `get_metrics`: its key set never contains
`rejection_count`, contradicting the claimed rejection counter. -/
theorem get_metrics_no_rejection_count (rm : TestRiskManager) :
    "rejection_count" ∉ (rm.get_metrics).map Prod.fst := by
  simp only [get_metrics, List.map, List.mem_cons, List.not_mem_nil]
  decide

/-- Price 4660.0 passes the tick gate for tick 0.2 (remainder within ε of
the tick). -/
lemma tick_ok_pass_4660 : tick_ok (some contract02) (reqAtPrice 4660) = true := by
  unfold tick_ok contract02 reqAtPrice
  dsimp only
  rw [if_pos rfl, if_pos (by norm_num [tick02])]
  exact decide_eq_true (by
    unfold pymod tick02 tick_eps
    norm_num [abs_of_nonneg, abs_of_nonpos])

lemma tick_ok_fail_4660_1 : tick_ok (some contract02) (reqAtPrice price4660_1) = false := by
  unfold tick_ok contract02 reqAtPrice
  dsimp only
  rw [if_pos rfl, if_pos (by norm_num [tick02])]
  exact decide_eq_false (by
    unfold pymod tick02 tick_eps price4660_1
    norm_num [abs_of_nonneg, abs_of_nonpos])

lemma tick_ok_fail_4660_0001 : tick_ok (some contract02) (reqAtPrice price4660_0001) = false := by
  unfold tick_ok contract02 reqAtPrice
  dsimp only
  rw [if_pos rfl, if_pos (by norm_num [tick02])]
  exact decide_eq_false (by
    unfold pymod tick02 tick_eps price4660_0001
    norm_num [abs_of_nonneg, abs_of_nonpos])

/-- Claim C4, counterexample: at tick 0.2 the price 4660.0001 is REJECTED
by the price-tick gate, refuting the claim's "passes price 4660.0001 as
being within ε": its remainder is ≈ 1e-4, far above ε = 1e-6. -/
theorem tick_gate_rejects_4660_0001 :
    rmTick.check_order (reqAtPrice price4660_0001) = (false, rmTick) := by
  unfold check_order
  rw [if_neg (by simp [rmTick, TestRiskManager.init]),
    if_neg (by simp [reqAtPrice]),
    if_neg (by norm_num [reqAtPrice]),
    if_pos (by rw [show rmTick.contract = some contract02 from rfl]; rw [tick_ok_fail_4660_0001])]

/-- Claim C4, amended: with a reference contract whose tick size is 0.2,
the price-tick gate of `check_order` passes price 4660.0, rejects price
4660.1, and also rejects price 4660.0001, whose remainder ≈ 1e-4 exceeds
ε = 1e-6. -/
theorem tick_gate_examples :
    (rmTick.check_order (reqAtPrice 4660)).1 = true
  ∧ (rmTick.check_order (reqAtPrice price4660_1)).1 = false
  ∧ (rmTick.check_order (reqAtPrice price4660_0001)).1 = false := by
  refine ⟨?_, ?_, ?_⟩
  · rw [check_order_accept rmTick (reqAtPrice 4660) rfl (by decide) (by decide)
      (by norm_num [reqAtPrice]) tick_ok_pass_4660]
  · unfold check_order
    rw [if_neg (by simp [rmTick, TestRiskManager.init]),
      if_neg (by simp [reqAtPrice]),
      if_neg (by norm_num [reqAtPrice]),
      if_pos (by rw [show rmTick.contract = some contract02 from rfl]; rw [tick_ok_fail_4660_1])]
  · unfold check_order
    rw [if_neg (by simp [rmTick, TestRiskManager.init]),
      if_neg (by simp [reqAtPrice]),
      if_neg (by norm_num [reqAtPrice]),
      if_pos (by rw [show rmTick.contract = some contract02 from rfl]; rw [tick_ok_fail_4660_0001])]




/-- Claim C3: for every threshold T > 0 (order, cancel, or repeat),
starting from a reset state: after exactly T-1 qualifying events the
corresponding `warned*` latch is false; at the T-th event the counter equals
T — so the alert fires at `count ≥ T`, not `count > T` — and the latch
becomes true; the latch then stays true through arbitrary further events;
`set_thresholds` and `reset_counters` clear all three latches; and a
threshold of 0 is disabled and never fires.  Qualifying events are accepted
orders, session-owned cancel callbacks, and repeat registrations (for the
repeat latch, n qualifying repeat events are produced by n+1 identical
cancel registrations). -/
theorem threshold_latch_spec
    (rm : TestRiskManager) (req : OrderRequest) (vt : String) (creq : CancelRequest)
    (T1 T2 T3 : ℕ) (hT1 : 0 < T1) (hT2 : 0 < T2) (hT3 : 0 < T3)
    (hA : rm.active = true)
    (h2 : req.symbol ≠ "INVALID_CODE") (h3 : req.symbol ≠ "INVALID")
    (h4 : ¬(10000 ≤ req.volume ∧ req.reference ≠ "FundTest"))
    (h5 : tick_ok rm.contract req = true)
    (hvt : vt ∈ rm.session_order_ids)
    (hmo : rm.max_order_count = (T1 : ℤ))
    (hmc : rm.max_cancel_count = (T2 : ℤ))
    (hmr : rm.max_repeat_count = (T3 : ℤ))
    (hoc : rm.order_count = 0) (hcc : rm.cancel_count = 0)
    (hro : rm.repeat_order_count = 0) (hrc : rm.repeat_cancel_count = 0)
    (hsig : getCount rm.cancel_signature_count (cancel_signature creq) = 0)
    (hwo : rm.warned_order_threshold = false)
    (hwc : rm.warned_cancel_threshold = false)
    (hwr : rm.warned_repeat_threshold = false) :
    ((order_trace req rm (T1 - 1)).warned_order_threshold = false
      ∧ (order_trace req rm T1).order_count = T1
      ∧ (order_trace req rm T1).warned_order_threshold = true
      ∧ ∀ k, (order_trace req rm (T1 + k)).warned_order_threshold = true)
  ∧ ((cancel_trace vt rm (T2 - 1)).warned_cancel_threshold = false
      ∧ (cancel_trace vt rm T2).cancel_count = T2
      ∧ (cancel_trace vt rm T2).warned_cancel_threshold = true
      ∧ ∀ k, (cancel_trace vt rm (T2 + k)).warned_cancel_threshold = true)
  ∧ ((rcancel_trace creq rm T3).warned_repeat_threshold = false
      ∧ (rcancel_trace creq rm (T3 + 1)).repeat_cancel_count = T3
      ∧ (rcancel_trace creq rm (T3 + 1)).warned_repeat_threshold = true
      ∧ ∀ k, (rcancel_trace creq rm (T3 + 1 + k)).warned_repeat_threshold = true)
  ∧ (∀ (s : TestRiskManager) (o c r : Option ℤ),
        (s.set_thresholds o c r).warned_order_threshold = false
      ∧ (s.set_thresholds o c r).warned_cancel_threshold = false
      ∧ (s.set_thresholds o c r).warned_repeat_threshold = false
      ∧ s.reset_counters.warned_order_threshold = false
      ∧ s.reset_counters.warned_cancel_threshold = false
      ∧ s.reset_counters.warned_repeat_threshold = false)
  ∧ (∀ n, (order_trace req (rm.set_thresholds (some 0) (some 0) (some 0)) n).warned_order_threshold = false
      ∧ (cancel_trace vt (rm.set_thresholds (some 0) (some 0) (some 0)) n).warned_cancel_threshold = false
      ∧ (rcancel_trace creq (rm.set_thresholds (some 0) (some 0) (some 0)) n).warned_repeat_threshold = false) := by
  have hord := order_trace_spec req rm T1 hA h2 h3 h4 h5 hmo hoc hwo
  have hcan := cancel_trace_spec vt rm T2 hvt hmc hcc hwc
  have hrep := rcancel_trace_spec creq rm T3 hmr hsig hro hrc hwr
  refine ⟨⟨?_, ?_, ?_, ?_⟩, ⟨?_, ?_, ?_, ?_⟩, ⟨?_, ?_, ?_, ?_⟩, ?_, ?_⟩
  · rw [(hord (T1 - 1)).2.2.2.2]
    exact decide_eq_false (by omega)
  · exact (hord T1).1
  · rw [(hord T1).2.2.2.2]
    exact decide_eq_true ⟨hT1, le_refl T1⟩
  · intro k
    rw [(hord (T1 + k)).2.2.2.2]
    exact decide_eq_true (by omega)
  · rw [(hcan (T2 - 1)).2.2.2]
    exact decide_eq_false (by omega)
  · exact (hcan T2).1
  · rw [(hcan T2).2.2.2]
    exact decide_eq_true ⟨hT2, le_refl T2⟩
  · intro k
    rw [(hcan (T2 + k)).2.2.2]
    exact decide_eq_true (by omega)
  · rw [(hrep T3).2.2.2.2]
    exact decide_eq_false (by omega)
  · rw [(hrep (T3 + 1)).2.2.1]
    omega
  · rw [(hrep (T3 + 1)).2.2.2.2]
    exact decide_eq_true (by omega)
  · intro k
    rw [(hrep (T3 + 1 + k)).2.2.2.2]
    exact decide_eq_true (by omega)
  · intro s o c r
    obtain ⟨g1, g2, g3, -⟩ := set_thresholds_frame s o c r
    exact ⟨g1, g2, g3, rfl, rfl, rfl⟩
  · intro n
    have hord0 := order_trace_spec req (rm.set_thresholds (some 0) (some 0) (some 0)) 0
      hA h2 h3 h4 h5 rfl hoc rfl
    have hcan0 := cancel_trace_spec vt (rm.set_thresholds (some 0) (some 0) (some 0)) 0
      hvt rfl hcc rfl
    have hrep0 := rcancel_trace_spec creq (rm.set_thresholds (some 0) (some 0) (some 0)) 0
      rfl hsig hro hrc rfl
    refine ⟨?_, ?_, ?_⟩
    · rw [(hord0 n).2.2.2.2]
      exact decide_eq_false (by omega)
    · rw [(hcan0 n).2.2.2]
      exact decide_eq_false (by omega)
    · rw [(hrep0 n).2.2.2.2]
      exact decide_eq_false (by omega)



theorem run_case_single_slot_witness :
    run_case { task_lock := false, current_case_id := none } "2.1.1"
      = Except.ok (true, { task_lock := true, current_case_id := none }) :=
  (run_case_single_slot { task_lock := false, current_case_id := none } "2.1.1" "2.1.2.1"
    (by decide) (by decide)).1 rfl

theorem threshold_latch_spec_witness :
    (order_trace reqW rmW 1).warned_order_threshold = false
  ∧ (order_trace reqW rmW 2).warned_order_threshold = true
  ∧ (cancel_trace "GW.1" rmW 2).warned_cancel_threshold = true
  ∧ (rcancel_trace creqW rmW 3).warned_repeat_threshold = true := by
  have h := threshold_latch_spec rmW reqW "GW.1" creqW 2 2 2
    (by decide) (by decide) (by decide) rfl (by decide) (by decide) (by decide) rfl
    (by decide) rfl rfl rfl rfl rfl rfl rfl rfl rfl rfl rfl
  exact ⟨h.1.1, h.1.2.2.1, h.2.1.2.2.1, h.2.2.1.2.2.1⟩

theorem start_restart_worker_spec_witness :
    ProcessManager.start_worker { running := true, disconnect_mode := false } false
      = (true, { running := true, disconnect_mode := false }) :=
  (start_restart_worker_spec { running := true, disconnect_mode := false }).1 rfl rfl

theorem signature_repeat_accounting_witness :
    (rmX.register_cancel_request creqW).repeat_cancel_count
      = rmX.repeat_cancel_count + 1 :=
  signature_repeat_accounting.2.2.2.1 rmX creqW (by simp [rmX, getCount])

theorem emergency_stop_spec_witness :
    rmW.emergency_stop.check_order reqW = (false, rmW.emergency_stop) :=
  (emergency_stop_spec rmW reqW creqW (by decide) (by decide) (by decide) rfl).1

theorem volume_gate_spec_witness :
    rmW.check_order reqBig = (false, rmW) :=
  volume_gate_spec.1 rmW reqBig rfl (by decide) (by decide) (by decide) (by decide)

theorem run_case_unknown_id_spec_witness :
    handle_run_case { task_lock := false, current_case_id := none } "9.9.9"
      = ({ ok := false, accepted := none,
           error := some ("未找到测试项 " ++ pyStrip "9.9.9") },
         { task_lock := false, current_case_id := none }) :=
  (run_case_unknown_id_spec { task_lock := false, current_case_id := none }
    "9.9.9" "2.1.1" (by decide) (by decide) rfl).1


end CtpKit
